import Mathlib

/-!
Verification of the geofence evaluation engine (`convex/geofences.ts`).

This file embeds the algorithmic core of the repository's geofence engine:

* `isPointInPolygon` — the ray-casting containment test (lines 20–29),
  modelled over `ℚ` (the source works on JS numbers; only ordered-field
  arithmetic occurs in this function);
* `isGeofenceActiveNow` — the schedule gate (lines 32–53); the wall clock
  (`new Date()`) is abstracted into an explicit `NowInfo` argument carrying
  the lowercase weekday name and the `"HH:MM"` time-of-day string that the
  source derives from it, and the source's string comparisons are kept;
* `checkGeofenceEvents` — the per-location-update evaluation mutation
  (lines 300–438); the Convex event table is modelled as a list of
  `GeofenceEvent` records in insertion order, and the two index lookups
  (`.order("desc").first()`) become `lastMatching`;
* `createGeofenceAlert`'s message construction (lines 454–473).

`isPointInCircle` (lines 7–17) computes a haversine distance with
transcendental functions, so it is modelled separately over `ℝ` at the end
of the definitions.  Inside the engine only the Boolean outcome of the
circle test ever matters, so the engine takes the circle containment test
as an explicit functional argument `inCircle`; every theorem about the
engine quantifies over it (and hence holds in particular for the real
haversine test).
-/

/-- A latitude/longitude pair, as used by the engine (source: the
`{ lat: number; lng: number }` objects). -/
structure Point where
  lat : ℚ
  lng : ℚ
deriving DecidableEq

/-- `geofence.type` ∈ {safe_zone, restricted_zone, alert_zone}. -/
inductive GeofenceType where
  | safeZone
  | restrictedZone
  | alertZone
deriving DecidableEq

/-- `geofence.shape` ∈ {circle, polygon}. -/
inductive Shape where
  | circle
  | polygon
deriving DecidableEq

/-- `eventType` ∈ {entry, exit, violation}. -/
inductive EventType where
  | entry
  | exit
  | violation
deriving DecidableEq

/-- Alert priority levels of a per-user rule. -/
inductive Priority where
  | low
  | medium
  | high
  | critical
deriving DecidableEq

/-- A per-user rule of a geofence (`userRules` entries). -/
structure UserRule where
  userId : ℕ
  alertOnEntry : Bool
  alertOnExit : Bool
  customMessage : Option String
  priority : Option Priority
deriving DecidableEq

/-- A geofence activation schedule. `days` holds lowercase weekday names. -/
structure Schedule where
  enabled : Bool
  startTime : String
  endTime : String
  days : List String
  timezone : Option String
deriving DecidableEq

/-- A stored geofence document (the fields the engine reads). -/
structure Geofence where
  id : ℕ
  sessionId : ℕ
  name : String
  type : GeofenceType
  shape : Shape
  center : Option Point
  radius : Option ℚ
  coordinates : Option (List Point)
  alertOnEntry : Bool
  alertOnExit : Bool
  active : Bool
  schedule : Option Schedule
  userRules : Option (List UserRule)
deriving DecidableEq

/-- The `metadata` object written on exit events. -/
structure EventMetadata where
  duration : Option ℤ
deriving DecidableEq

/-- A stored `geofenceEvents` document. -/
structure GeofenceEvent where
  sessionId : ℕ
  geofenceId : ℕ
  userId : ℕ
  eventType : EventType
  timestamp : ℤ
  location : Point
  alertSent : Bool
  acknowledged : Bool
  metadata : Option EventMetadata
deriving DecidableEq

/-- What the source derives from `new Date()`: the lowercase weekday name
(`toLocaleDateString` + `toLowerCase`) and the time of day truncated to
minutes as an `"HH:MM"` string (`toTimeString().slice(0, 5)`). -/
structure NowInfo where
  currentDay : String
  currentTime : String

/-- One crossing test of the ray-casting loop body (source lines 23–24):
the edge from vertex `vj` to vertex `vi` crosses the horizontal ray from
the point iff the vertices straddle the point's latitude and the point's
longitude is left of the edge's longitude at that latitude. -/
def edgeCrosses (p vi vj : Point) : Bool :=
  (decide (vi.lat > p.lat) != decide (vj.lat > p.lat)) &&
    decide (p.lng < (vj.lng - vi.lng) * (p.lat - vi.lat) / (vj.lat - vi.lat) + vi.lng)

/-- The cyclic edge list traversed by the source loop: index `i` is paired
with its cyclic predecessor `j` (`j = polygon.length - 1` when `i = 0`,
else `j = i - 1`), which is exactly `polygon.rotate (polygon.length - 1)`
at index `i`. -/
def polygonEdges (polygon : List Point) : List (Point × Point) :=
  polygon.zip (polygon.rotate (polygon.length - 1))

/-- Ray-casting point-in-polygon test (source lines 20–29): the `inside`
flag starts `false` and is flipped once per crossing edge. -/
def isPointInPolygon (point : Point) (polygon : List Point) : Bool :=
  (polygonEdges polygon).foldl
    (fun inside e => if edgeCrosses point e.1 e.2 then !inside else inside) false

/-- JS string comparison `a <= b`: lexicographic on the character
sequences (JS compares code units; for the `"HH:MM"` strings involved all
characters are ASCII, where code-unit order is codepoint order). -/
def strLe (a b : String) : Bool :=
  decide (a.data < b.data) || decide (a = b)

/-- Schedule gate (source lines 32–53): absent or disabled schedules are
always active; otherwise the current weekday must be listed and the
current `"HH:MM"` time must fall in the window, where a window with
`startTime <= endTime` is a same-day interval and one with
`startTime > endTime` wraps around midnight.  String comparison on
`"HH:MM"` strings is the source's comparison. -/
def isGeofenceActiveNow (schedule : Option Schedule) (now : NowInfo) : Bool :=
  match schedule with
  | none => true
  | some s =>
    if !s.enabled then true
    else if !(s.days.contains now.currentDay) then false
    else if strLe s.startTime s.endTime then
      strLe s.startTime now.currentTime && strLe now.currentTime s.endTime
    else
      strLe s.startTime now.currentTime || strLe now.currentTime s.endTime

/-- JS truthiness of the `radius` field: `undefined` and `0` are falsy. -/
def radiusTruthy : Option ℚ → Bool
  | none => false
  | some r => decide (r ≠ 0)

/-- The containment dispatch of `checkGeofenceEvents` (source lines
324–328 and 330–336): a circle geofence is consulted only when `center`
and `radius` are truthy, a polygon geofence only when `coordinates` is
present; anything else contains nothing.  `inCircle` is the circle
containment test (the haversine test in the source). -/
def geofenceContains (inCircle : Point → Point → ℚ → Bool)
    (g : Geofence) (p : Point) : Bool :=
  if g.shape = Shape.circle ∧ g.center.isSome ∧ radiusTruthy g.radius then
    inCircle p (g.center.getD ⟨0, 0⟩) (g.radius.getD 0)
  else if g.shape = Shape.polygon ∧ g.coordinates.isSome then
    isPointInPolygon p (g.coordinates.getD [])
  else
    false

/-- `geofence.userRules?.find(rule => rule.userId === args.userId)`. -/
def findRule (g : Geofence) (userId : ℕ) : Option UserRule :=
  g.userRules.bind (fun rules => rules.find? (fun r => decide (r.userId = userId)))

/-- The most recent stored event satisfying `p`: the source queries the
`by_user_geofence` index with `.order("desc").first()`, i.e. the last
matching insertion.  The store is a list in insertion order. -/
def lastMatching (events : List GeofenceEvent) (p : GeofenceEvent → Bool) :
    Option GeofenceEvent :=
  events.reverse.find? p

/-- The predicate of the source's event lookups: same user, same geofence,
given event type. -/
def isEventFor (uid gid : ℕ) (t : EventType) (e : GeofenceEvent) : Bool :=
  decide (e.userId = uid ∧ e.geofenceId = gid ∧ e.eventType = t)

/-- The source's `wasInside` (lines 330–336): falsy when no previous
location was supplied, else the containment test on the previous
location. -/
def wasInsideOf (inCircle : Point → Point → ℚ → Bool) (g : Geofence) :
    Option Point → Bool
  | none => false
  | some q => geofenceContains inCircle g q

/-- Entry/exit stage of the per-geofence loop body (source lines 338–402):
an entry event is inserted when the user is inside now but was not before,
an exit event when the user is outside now but was inside before; the exit
event carries `metadata.duration = now - lastEntry.timestamp` when a prior
entry event for the (user, geofence) pair exists.  Both are inserted
whether or not they alert (`alertSent` records the resolved alert flag). -/
def handleTransition (inCircle : Point → Point → ℚ → Bool) (now : ℤ)
    (sessionId userId : ℕ) (location : Point) (previousLocation : Option Point)
    (events : List GeofenceEvent) (g : Geofence) : List GeofenceEvent :=
  let isCurrentlyInside := geofenceContains inCircle g location
  let wasInside := wasInsideOf inCircle g previousLocation
  if isCurrentlyInside && !wasInside then
    let shouldAlert := g.alertOnEntry ||
      ((findRule g userId).map (fun r => r.alertOnEntry)).getD false
    events ++ [⟨sessionId, g.id, userId, EventType.entry, now, location,
      shouldAlert, false, none⟩]
  else if !isCurrentlyInside && wasInside then
    let shouldAlert := g.alertOnExit ||
      ((findRule g userId).map (fun r => r.alertOnExit)).getD false
    let lastEntry := lastMatching events (isEventFor userId g.id EventType.entry)
    let duration := lastEntry.map (fun e => now - e.timestamp)
    events ++ [⟨sessionId, g.id, userId, EventType.exit, now, location,
      shouldAlert, false, some ⟨duration⟩⟩]
  else
    events

/-- Violation stage of the per-geofence loop body (source lines 404–435):
being inside a restricted zone inserts a violation event with
`alertSent = true` unless the most recent stored violation for the same
(user, geofence) pair is at most 5 minutes (300000 ms) old, in which case
nothing is inserted at all. -/
def handleViolation (inCircle : Point → Point → ℚ → Bool) (now : ℤ)
    (sessionId userId : ℕ) (location : Point)
    (events : List GeofenceEvent) (g : Geofence) : List GeofenceEvent :=
  let isCurrentlyInside := geofenceContains inCircle g location
  if isCurrentlyInside && decide (g.type = GeofenceType.restrictedZone) then
    match lastMatching events (isEventFor userId g.id EventType.violation) with
    | none =>
      events ++ [⟨sessionId, g.id, userId, EventType.violation, now, location,
        true, false, none⟩]
    | some rv =>
      if now - rv.timestamp > 300000 then
        events ++ [⟨sessionId, g.id, userId, EventType.violation, now, location,
          true, false, none⟩]
      else
        events
  else
    events

/-- Full loop body for one geofence: the entry/exit stage runs first, then
the violation stage sees the store including any event the first stage
inserted (a Convex mutation reads its own writes). -/
def processGeofence (inCircle : Point → Point → ℚ → Bool) (now : ℤ)
    (sessionId userId : ℕ) (location : Point) (previousLocation : Option Point)
    (events : List GeofenceEvent) (g : Geofence) : List GeofenceEvent :=
  handleViolation inCircle now sessionId userId location
    (handleTransition inCircle now sessionId userId location previousLocation events g) g

/-- The `checkGeofenceEvents` mutation (source lines 300–438): restrict the
geofence table to the session's geofences with `active = true`, keep those
whose schedule is active now, and run the loop body over them in order,
threading the event store. -/
def checkGeofenceEvents (inCircle : Point → Point → ℚ → Bool) (nowInfo : NowInfo)
    (now : ℤ) (sessionId userId : ℕ) (location : Point)
    (previousLocation : Option Point) (geofences : List Geofence)
    (events : List GeofenceEvent) : List GeofenceEvent :=
  let sessionActive := geofences.filter (fun g => decide (g.sessionId = sessionId) && g.active)
  let activeGeofences := sessionActive.filter (fun g => isGeofenceActiveNow g.schedule nowInfo)
  activeGeofences.foldl
    (fun evs g => processGeofence inCircle now sessionId userId location previousLocation evs g)
    events

/-- JS truthiness of the optional `customMessage` string: `undefined` and
the empty string are falsy. -/
def strTruthy : Option String → Bool
  | none => false
  | some s => decide (s ≠ "")

/-- `getAlertMessage` of `createGeofenceAlert` (source lines 460–473):
the guard on line 461 is `if (customMessage) return customMessage;`, a JS
truthiness test, so a present but empty custom message falls through to
the template keyed by the event type. -/
def getAlertMessage (customMessage : Option String) (eventType : EventType)
    (userName geofenceName : String) : String :=
  if strTruthy customMessage then
    customMessage.getD ""
  else
    match eventType with
    | EventType.entry => userName ++ " entered " ++ geofenceName
    | EventType.exit => userName ++ " exited " ++ geofenceName
    | EventType.violation =>
      "🚨 VIOLATION: " ++ userName ++ " is in restricted zone " ++ geofenceName

/-- Message resolution of `createGeofenceAlert` (source lines 454–473):
the custom message is the `customMessage` of the per-user rule found for
the triggering user, and the user's display name and the geofence's name
fill the templates. -/
def createGeofenceAlertMessage (g : Geofence) (userId : ℕ) (userName : String)
    (eventType : EventType) : String :=
  getAlertMessage ((findRule g userId).bind (fun r => r.customMessage))
    eventType userName g.name

/-- A latitude/longitude pair over the reals, used for the circle
containment helper, whose haversine computation involves transcendental
functions (the JS numbers are idealised as reals). -/
structure RPoint where
  lat : ℝ
  lng : ℝ

/-- JS `Math.atan2(y, x)`: the angle of the point `(x, y)`, in `(-π, π]`.
Both the source translation and the spec-side haversine below use it. -/
noncomputable def atan2 (y x : ℝ) : ℝ :=
  if 0 < x then Real.arctan (y / x)
  else if x < 0 ∧ 0 ≤ y then Real.arctan (y / x) + Real.pi
  else if x < 0 ∧ y < 0 then Real.arctan (y / x) - Real.pi
  else if x = 0 ∧ 0 < y then Real.pi / 2
  else if x = 0 ∧ y < 0 then -(Real.pi / 2)
  else 0

/-- The distance computed by `isPointInCircle` (source lines 8–15),
step for step: degree differences scaled to radians, the `a` term from
products of sines and cosines, `c = 2 * atan2(sqrt a, sqrt (1 - a))`, and
`distance = R * c` with `R = 6371000`. -/
noncomputable def circleDistance (point center : RPoint) : ℝ :=
  let R : ℝ := 6371000
  let dLat := (point.lat - center.lat) * Real.pi / 180
  let dLng := (point.lng - center.lng) * Real.pi / 180
  let a := Real.sin (dLat / 2) * Real.sin (dLat / 2) +
    Real.cos (center.lat * Real.pi / 180) * Real.cos (point.lat * Real.pi / 180) *
      Real.sin (dLng / 2) * Real.sin (dLng / 2)
  let c := 2 * atan2 (Real.sqrt a) (Real.sqrt (1 - a))
  R * c

/-- `isPointInCircle` (source lines 7–17): the computed distance is
compared against the radius, boundary inclusive. -/
def isPointInCircle (point center : RPoint) (radius : ℝ) : Prop :=
  circleDistance point center ≤ radius

/-- Degrees to radians. -/
noncomputable def toRadians (deg : ℝ) : ℝ :=
  deg * Real.pi / 180

/-- The haversine great-circle distance as the spec states it (§4.1, §8):
with latitudes `phi1`, `phi2` in radians and the coordinate differences
`dPhi`, `dLam` in radians, `a = sin²(dPhi/2) + cos phi1 · cos phi2 ·
sin²(dLam/2)`, `c = 2·atan2(√a, √(1−a))`, and the distance is `R·c` with
Earth radius `R = 6 371 000` m.  This definition is written from the
spec's words, to be compared with the source-derived `circleDistance`. -/
noncomputable def haversineDistance (p c : RPoint) : ℝ :=
  let phi1 := toRadians c.lat
  let phi2 := toRadians p.lat
  let dPhi := toRadians (p.lat - c.lat)
  let dLam := toRadians (p.lng - c.lng)
  let a := Real.sin (dPhi / 2) ^ 2 + Real.cos phi1 * Real.cos phi2 * Real.sin (dLam / 2) ^ 2
  6371000 * (2 * atan2 (Real.sqrt a) (Real.sqrt (1 - a)))

/-- The circle containment test every engine witness instantiates; the
engine theorems hold for every such test, the real haversine one
included. -/
def inCircle0 : Point → Point → ℚ → Bool := fun _ _ _ => false

/-- A fixed evaluation instant for witnesses. -/
def nowEx : NowInfo := ⟨"monday", "12:00"⟩

/-- A degenerate polygon geofence (2 vertices). -/
def gBadPoly : Geofence :=
  ⟨7, 1, "degenerate", GeofenceType.safeZone, Shape.polygon, none, none,
    some [⟨0, 0⟩, ⟨10, 0⟩], false, false, true, none, none⟩

/-- A circle geofence missing its radius. -/
def gBadCircle : Geofence :=
  ⟨8, 1, "no radius", GeofenceType.safeZone, Shape.circle, some ⟨0, 0⟩, none,
    none, false, false, true, none, none⟩

/-- An enabled 09:00–17:00 Monday schedule. -/
def sDay : Schedule := ⟨true, "09:00", "17:00", ["monday"], none⟩

/-- A disabled schedule. -/
def sOff : Schedule := ⟨false, "09:00", "17:00", ["monday"], none⟩

/-- A polygon geofence gated by `sDay`. -/
def gSched : Geofence :=
  ⟨9, 1, "scheduled", GeofenceType.safeZone, Shape.polygon, none, none,
    some [⟨0, 0⟩, ⟨10, 0⟩, ⟨10, 10⟩, ⟨0, 10⟩], true, true, true, some sDay, none⟩

/-- A geofence with a custom per-user rule for user 2. -/
def gCustom : Geofence :=
  ⟨10, 1, "Test Zone", GeofenceType.restrictedZone, Shape.polygon, none, none,
    some [⟨0, 0⟩, ⟨10, 0⟩, ⟨10, 10⟩, ⟨0, 10⟩], false, false, true, none,
    some [⟨2, true, false, some "custom text", some Priority.high⟩]⟩

/-- A geofence without user rules, named "Test Zone". -/
def gPlain : Geofence :=
  ⟨11, 1, "Test Zone", GeofenceType.restrictedZone, Shape.polygon, none, none,
    some [⟨0, 0⟩, ⟨10, 0⟩, ⟨10, 10⟩, ⟨0, 10⟩], false, false, true, none, none⟩

/-- A geofence whose per-user rule for user 2 carries an empty custom
message (present but falsy in JS). -/
def gEmptyMsg : Geofence :=
  ⟨15, 1, "Test Zone", GeofenceType.restrictedZone, Shape.polygon, none, none,
    some [⟨0, 0⟩, ⟨10, 0⟩, ⟨10, 10⟩, ⟨0, 10⟩], false, false, true, none,
    some [⟨2, true, false, some "", none⟩]⟩

/-- A circle containment test that is always true, used to witness that
the zero-radius guard never consults the test. -/
def inCircle1 : Point → Point → ℚ → Bool := fun _ _ _ => true

/-- A 10×10 square of vertices containing `⟨5, 5⟩`. -/
def squareVerts : List Point := [⟨0, 0⟩, ⟨10, 0⟩, ⟨10, 10⟩, ⟨0, 10⟩]

/-- A restricted-zone polygon geofence with no alert flags. -/
def gViol : Geofence :=
  ⟨12, 1, "restricted", GeofenceType.restrictedZone, Shape.polygon, none, none,
    some squareVerts, false, false, true, none, none⟩

/-- A restricted-zone polygon geofence that alerts on entry. -/
def gEntry : Geofence :=
  ⟨13, 1, "restricted entry", GeofenceType.restrictedZone, Shape.polygon, none,
    none, some squareVerts, true, false, true, none, none⟩

/-- A circle geofence whose radius is exactly 0. -/
def gZero : Geofence :=
  ⟨14, 1, "zero radius", GeofenceType.restrictedZone, Shape.circle, some ⟨0, 0⟩,
    some 0, none, true, true, true, none, none⟩

/-- A prior entry event for user 1 in `gPlain`, 5 seconds before time 0. -/
def eEntryOld : GeofenceEvent :=
  ⟨1, 11, 1, EventType.entry, -5000, ⟨5, 5⟩, false, false, none⟩

/-- The distance the source computes is the haversine distance. -/
theorem circleDistance_eq_haversine (p c : RPoint) :
    circleDistance p c = haversineDistance p c := by
  simp only [circleDistance, haversineDistance, toRadians]
  ring_nf

/-- The flip-per-crossing fold computes the parity of the number of
crossing edges. -/
theorem foldl_flip_eq_parity (p : Point) (l : List (Point × Point)) (b : Bool) :
    l.foldl (fun inside e => if edgeCrosses p e.1 e.2 then !inside else inside) b =
      (b != decide (l.countP (fun e => edgeCrosses p e.1 e.2) % 2 = 1)) := by
  induction l generalizing b with
  | nil => simp
  | cons e t ih =>
    rw [List.foldl_cons, ih, List.countP_cons]
    cases hf : edgeCrosses p e.1 e.2 with
    | false => simp [hf]
    | true =>
      have hpar : decide ((t.countP (fun e => edgeCrosses p e.1 e.2) + 1) % 2 = 1) =
          !decide (t.countP (fun e => edgeCrosses p e.1 e.2) % 2 = 1) := by
        rcases Nat.mod_two_eq_zero_or_one (t.countP (fun e => edgeCrosses p e.1 e.2)) with h | h <;>
          simp [Nat.add_mod, h]
      simp only [hf, if_true, Bool.true_eq, hpar]
      cases b <;> cases hd : decide (t.countP (fun e => edgeCrosses p e.1 e.2) % 2 = 1) <;> simp [hd]

/-- `isPointInPolygon` is the parity of the crossing count over the cyclic
edge list. -/
theorem isPointInPolygon_eq_parity (p : Point) (vs : List Point) :
    isPointInPolygon p vs =
      decide ((polygonEdges vs).countP (fun e => edgeCrosses p e.1 e.2) % 2 = 1) := by
  rw [isPointInPolygon, foldl_flip_eq_parity]
  cases hd : decide ((polygonEdges vs).countP (fun e => edgeCrosses p e.1 e.2) % 2 = 1) <;>
    simp [hd]

/-- The crossing test does not depend on the traversal direction of the
edge: for a straddling edge the interpolated longitude lies on the same
line through the two vertices. -/
theorem edgeCrosses_swap (p a b : Point) : edgeCrosses p a b = edgeCrosses p b a := by
  unfold edgeCrosses
  by_cases h1 : a.lat > p.lat <;> by_cases h2 : b.lat > p.lat
  · simp [h1, h2]
  · have hne : b.lat - a.lat ≠ 0 := by
      have : b.lat ≤ p.lat := le_of_not_lt h2
      have : b.lat < a.lat := lt_of_le_of_lt this h1
      intro hc; exact absurd (by linarith : b.lat = a.lat) (ne_of_lt this)
    have hne2 : a.lat - b.lat ≠ 0 := fun hc => hne (by linarith [hc])
    have hx : (b.lng - a.lng) * (p.lat - a.lat) / (b.lat - a.lat) + a.lng =
        (a.lng - b.lng) * (p.lat - b.lat) / (a.lat - b.lat) + b.lng := by
      field_simp
      ring
    simp [h1, h2, hx]
  · have hne : a.lat - b.lat ≠ 0 := by
      have : a.lat ≤ p.lat := le_of_not_lt h1
      have : a.lat < b.lat := lt_of_le_of_lt this h2
      intro hc; exact absurd (by linarith : a.lat = b.lat) (ne_of_lt this)
    have hne2 : b.lat - a.lat ≠ 0 := fun hc => hne (by linarith [hc])
    have hx : (b.lng - a.lng) * (p.lat - a.lat) / (b.lat - a.lat) + a.lng =
        (a.lng - b.lng) * (p.lat - b.lat) / (a.lat - b.lat) + b.lng := by
      field_simp
      ring
    simp [h1, h2, hx]
  · simp [h1, h2]

/-- Degenerate vertex lists are never containing: the empty and
one-vertex lists produce no crossing, and for two vertices the two
opposite traversals of the single segment cross together, keeping the
parity even. -/
theorem isPointInPolygon_lt_three (p : Point) (vs : List Point) (h : vs.length < 3) :
    isPointInPolygon p vs = false := by
  match vs with
  | [] => rfl
  | [a] =>
    simp [isPointInPolygon, polygonEdges, List.rotate, edgeCrosses]
  | [a, b] =>
    have hr : ([a, b] : List Point).rotate 1 = [b, a] := by
      simp [List.rotate]
    have hswap := edgeCrosses_swap p a b
    simp only [isPointInPolygon, polygonEdges, List.length_cons, List.length_nil, hr]
    cases hab : edgeCrosses p a b <;>
      simp [List.zip, List.foldl, hab, hswap.symm.trans hab]
  | _ :: _ :: _ :: _ => exact absurd h (by simp)

/-- Zipping commutes with rotating both lists by the same amount, when the
lists have the same length. -/
theorem zip_rotate {α β : Type} (l : List α) (m : List β) (k : ℕ)
    (h : l.length = m.length) :
    (l.rotate k).zip (m.rotate k) = (l.zip m).rotate k := by
  apply List.ext_getElem
  · simp [h]
  · intro i h1 h2
    have hzl : (l.zip m).length = l.length := by simp [h]
    have hil : i < l.length := by
      simpa [h] using h1
    simp [List.getElem_zip, List.getElem_rotate, hzl, h]

/-- The cyclic edge list of a rotated vertex list is the rotated edge
list: each vertex keeps its cyclic predecessor. -/
theorem polygonEdges_rotate (vs : List Point) (k : ℕ) :
    polygonEdges (vs.rotate k) = (polygonEdges vs).rotate k := by
  unfold polygonEdges
  rw [List.length_rotate, List.rotate_rotate,
    ← zip_rotate vs (vs.rotate (vs.length - 1)) k (by rw [List.length_rotate]),
    List.rotate_rotate, Nat.add_comm]

/-- A geofence that contains no point yields no event of any kind. -/
theorem processGeofence_of_not_contains (inCircle : Point → Point → ℚ → Bool)
    (now : ℤ) (sid uid : ℕ) (loc : Point) (prev : Option Point)
    (events : List GeofenceEvent) (g : Geofence)
    (h : ∀ q, geofenceContains inCircle g q = false) :
    processGeofence inCircle now sid uid loc prev events g = events := by
  unfold processGeofence handleTransition handleViolation
  cases prev <;> simp [h, wasInsideOf]

/-- A call with a single geofence that passes both store filters runs the
loop body once. -/
theorem checkGeofenceEvents_singleton (inCircle : Point → Point → ℚ → Bool)
    (nowInfo : NowInfo) (now : ℤ) (sid uid : ℕ) (loc : Point)
    (prev : Option Point) (g : Geofence) (events : List GeofenceEvent)
    (hs : g.sessionId = sid) (ha : g.active = true)
    (hact : isGeofenceActiveNow g.schedule nowInfo = true) :
    checkGeofenceEvents inCircle nowInfo now sid uid loc prev [g] events =
      processGeofence inCircle now sid uid loc prev events g := by
  simp [checkGeofenceEvents, hs, ha, hact]

/-- Entry branch of the transition stage. -/
theorem handleTransition_entry_eq {inCircle : Point → Point → ℚ → Bool} {now : ℤ}
    {sid uid : ℕ} {loc : Point} {prev : Option Point} {events : List GeofenceEvent}
    {g : Geofence} (h1 : geofenceContains inCircle g loc = true)
    (h2 : wasInsideOf inCircle g prev = false) :
    handleTransition inCircle now sid uid loc prev events g =
      events ++ [⟨sid, g.id, uid, EventType.entry, now, loc,
        g.alertOnEntry || ((findRule g uid).map (fun r => r.alertOnEntry)).getD false,
        false, none⟩] := by
  simp [handleTransition, h1, h2]

/-- Exit branch of the transition stage. -/
theorem handleTransition_exit_eq {inCircle : Point → Point → ℚ → Bool} {now : ℤ}
    {sid uid : ℕ} {loc : Point} {prev : Option Point} {events : List GeofenceEvent}
    {g : Geofence} (h1 : geofenceContains inCircle g loc = false)
    (h2 : wasInsideOf inCircle g prev = true) :
    handleTransition inCircle now sid uid loc prev events g =
      events ++ [⟨sid, g.id, uid, EventType.exit, now, loc,
        g.alertOnExit || ((findRule g uid).map (fun r => r.alertOnExit)).getD false,
        false,
        some ⟨(lastMatching events (isEventFor uid g.id EventType.entry)).map
          (fun e => now - e.timestamp)⟩⟩] := by
  simp [handleTransition, h1, h2]

/-- No transition: inside-status unchanged inserts nothing. -/
theorem handleTransition_idle_eq {inCircle : Point → Point → ℚ → Bool} {now : ℤ}
    {sid uid : ℕ} {loc : Point} {prev : Option Point} {events : List GeofenceEvent}
    {g : Geofence}
    (h : geofenceContains inCircle g loc = wasInsideOf inCircle g prev) :
    handleTransition inCircle now sid uid loc prev events g = events := by
  cases hIn : geofenceContains inCircle g loc <;>
    simp [handleTransition, hIn, (h.symm.trans hIn : wasInsideOf inCircle g prev = _)]

/-- The violation stage either inserts exactly one violation event with
`alertSent = true` or leaves the store unchanged. -/
theorem handleViolation_eq_or (inCircle : Point → Point → ℚ → Bool) (now : ℤ)
    (sid uid : ℕ) (loc : Point) (events : List GeofenceEvent) (g : Geofence) :
    handleViolation inCircle now sid uid loc events g = events ∨
    handleViolation inCircle now sid uid loc events g =
      events ++ [⟨sid, g.id, uid, EventType.violation, now, loc, true, false, none⟩] := by
  unfold handleViolation
  cases hc : (geofenceContains inCircle g loc && decide (g.type = GeofenceType.restrictedZone)) with
  | false => left; simp [hc]
  | true =>
    cases hm : lastMatching events (isEventFor uid g.id EventType.violation) with
    | none => right; simp [hc, hm]
    | some rv =>
      by_cases ht : now - rv.timestamp > 300000
      · right; simp [hc, hm, ht]
      · left; simp [hc, hm, ht]

/-- The violation stage does nothing when the user is outside. -/
theorem handleViolation_skip_out {inCircle : Point → Point → ℚ → Bool} {now : ℤ}
    {sid uid : ℕ} {loc : Point} {events : List GeofenceEvent} {g : Geofence}
    (h : geofenceContains inCircle g loc = false) :
    handleViolation inCircle now sid uid loc events g = events := by
  simp [handleViolation, h]

/-- Appending one event shifts the most-recent-match lookup by one. -/
theorem lastMatching_append (events : List GeofenceEvent) (e : GeofenceEvent)
    (p : GeofenceEvent → Bool) :
    lastMatching (events ++ [e]) p =
      (if p e then some e else lastMatching events p) := by
  unfold lastMatching
  rw [List.reverse_append]
  cases hp : p e <;> simp [hp]

/-- A call over a single never-containing geofence leaves the store
unchanged. -/
theorem checkGeofenceEvents_of_not_contains (inCircle : Point → Point → ℚ → Bool)
    (nowInfo : NowInfo) (now : ℤ) (sid uid : ℕ) (loc : Point)
    (prev : Option Point) (g : Geofence) (events : List GeofenceEvent)
    (h : ∀ q, geofenceContains inCircle g q = false) :
    checkGeofenceEvents inCircle nowInfo now sid uid loc prev [g] events = events := by
  cases hb : (decide (g.sessionId = sid) && g.active) with
  | false => simp [checkGeofenceEvents, hb]
  | true =>
    cases hact : isGeofenceActiveNow g.schedule nowInfo with
    | false => simp [checkGeofenceEvents, hb, hact]
    | true =>
      simp [checkGeofenceEvents, hb, hact,
        processGeofence_of_not_contains inCircle now sid uid loc prev events g h]

/-- C6: Circle containment — for all points `p`, centers and radii,
`isPointInCircle` holds iff the haversine great-circle distance (Earth
radius 6 371 000 m) between the point and the center is at most the
radius, boundary inclusive. -/
theorem claim_C6_circle_containment (p c : RPoint) (r : ℝ) :
    isPointInCircle p c r ↔ haversineDistance p c ≤ r := by
  unfold isPointInCircle
  rw [circleDistance_eq_haversine]

/-- C8: Rotation invariance of polygon containment — rotating which
vertex the list starts at never changes the containment result. -/
theorem claim_C8_rotation_invariance (p : Point) (vs : List Point) (k : ℕ) :
    isPointInPolygon p (vs.rotate k) = isPointInPolygon p vs := by
  rw [isPointInPolygon_eq_parity, isPointInPolygon_eq_parity, polygonEdges_rotate,
    (List.rotate_perm (polygonEdges vs) k).countP_eq]

/-- C7: Invalid geometry is never containing — `isPointInPolygon` returns
`false` (without throwing) for fewer than 3 vertices; in the engine's
dispatch a polygon geofence with fewer than 3 vertices and a circle
geofence missing its center or radius contain no point; and a geofence
containing no point produces no events for the sample. -/
theorem claim_C7_invalid_geometry :
    (∀ (p : Point) (vs : List Point), vs.length < 3 → isPointInPolygon p vs = false) ∧
    (∀ (inCircle : Point → Point → ℚ → Bool) (g : Geofence) (p : Point),
      g.shape = Shape.polygon →
      (∀ cs, g.coordinates = some cs → cs.length < 3) →
      geofenceContains inCircle g p = false) ∧
    (∀ (inCircle : Point → Point → ℚ → Bool) (g : Geofence) (p : Point),
      g.shape = Shape.circle →
      g.center = none ∨ g.radius = none →
      geofenceContains inCircle g p = false) ∧
    (∀ (inCircle : Point → Point → ℚ → Bool) (nowInfo : NowInfo) (now : ℤ)
      (sid uid : ℕ) (loc : Point) (prev : Option Point) (g : Geofence)
      (events : List GeofenceEvent),
      (∀ q, geofenceContains inCircle g q = false) →
      checkGeofenceEvents inCircle nowInfo now sid uid loc prev [g] events = events) := by
  refine ⟨isPointInPolygon_lt_three, ?_, ?_, ?_⟩
  · intro inCircle g p hshape hlen
    cases hc : g.coordinates with
    | none => simp [geofenceContains, hshape, hc]
    | some cs => simp [geofenceContains, hshape, hc, isPointInPolygon_lt_three p cs (hlen cs hc)]
  · intro inCircle g p hshape hmiss
    rcases hmiss with hcen | hrad
    · simp [geofenceContains, hshape, hcen]
    · simp [geofenceContains, hshape, hrad, radiusTruthy]
  · intro inCircle nowInfo now sid uid loc prev g events h
    cases hb : (decide (g.sessionId = sid) && g.active) with
    | false => simp [checkGeofenceEvents, hb]
    | true =>
      cases hact : isGeofenceActiveNow g.schedule nowInfo with
      | false => simp [checkGeofenceEvents, hb, hact]
      | true =>
        simp [checkGeofenceEvents, hb, hact,
          processGeofence_of_not_contains inCircle now sid uid loc prev events g h]

/-- Witness for C7 at concrete inputs: a 2-vertex polygon, a polygon
geofence over it, a circle geofence without radius, and a call that
records nothing. -/
theorem claim_C7_witness :
    isPointInPolygon ⟨5, 5⟩ [⟨0, 0⟩, ⟨10, 0⟩] = false ∧
    geofenceContains inCircle0 gBadPoly ⟨5, 5⟩ = false ∧
    geofenceContains inCircle0 gBadCircle ⟨5, 5⟩ = false ∧
    checkGeofenceEvents inCircle0 nowEx 0 1 1 ⟨5, 5⟩ none [gBadPoly] [] = [] := by
  have hdeg : ∀ cs, gBadPoly.coordinates = some cs → cs.length < 3 := by
    intro cs hcs
    have h2 : some ([⟨0, 0⟩, ⟨10, 0⟩] : List Point) = some cs := hcs
    rw [← Option.some.inj h2]
    decide
  refine ⟨claim_C7_invalid_geometry.1 _ _ (by decide),
    claim_C7_invalid_geometry.2.1 inCircle0 gBadPoly _ rfl hdeg,
    claim_C7_invalid_geometry.2.2.1 inCircle0 gBadCircle _ rfl (Or.inr rfl),
    claim_C7_invalid_geometry.2.2.2 inCircle0 nowEx 0 1 1 ⟨5, 5⟩ none gBadPoly []
      (fun q => claim_C7_invalid_geometry.2.1 inCircle0 gBadPoly q rfl hdeg)⟩

/-- C5: Schedule gating — the active-now check is `true` when the
schedule is absent or disabled; with an enabled schedule it is `false`
when the current lowercase weekday is not listed, and otherwise compares
the current `"HH:MM"` time `t` against the window: for
`startTime <= endTime` it requires `startTime <= t` and `t <= endTime`,
for an overnight window it requires `t >= startTime` or `t <= endTime`
(string comparisons, as in the source); and a geofence whose check is
`false` produces zero events in the call regardless of containment. -/
theorem claim_C5_schedule_gating :
    (∀ now : NowInfo, isGeofenceActiveNow none now = true) ∧
    (∀ (s : Schedule) (now : NowInfo), s.enabled = false →
      isGeofenceActiveNow (some s) now = true) ∧
    (∀ (s : Schedule) (now : NowInfo), s.enabled = true →
      s.days.contains now.currentDay = false →
      isGeofenceActiveNow (some s) now = false) ∧
    (∀ (s : Schedule) (now : NowInfo), s.enabled = true →
      s.days.contains now.currentDay = true →
      isGeofenceActiveNow (some s) now =
        (if strLe s.startTime s.endTime then
          strLe s.startTime now.currentTime && strLe now.currentTime s.endTime
        else
          strLe s.startTime now.currentTime || strLe now.currentTime s.endTime)) ∧
    (∀ (inCircle : Point → Point → ℚ → Bool) (nowInfo : NowInfo) (now : ℤ)
      (sid uid : ℕ) (loc : Point) (prev : Option Point) (g : Geofence)
      (events : List GeofenceEvent),
      isGeofenceActiveNow g.schedule nowInfo = false →
      checkGeofenceEvents inCircle nowInfo now sid uid loc prev [g] events = events) := by
  refine ⟨fun now => rfl, ?_, ?_, ?_, ?_⟩
  · intro s now h
    simp [isGeofenceActiveNow, h]
  · intro s now he hd
    simp only [isGeofenceActiveNow, he, hd]
    simp
  · intro s now he hd
    simp only [isGeofenceActiveNow, he, hd]
    simp
  · intro inCircle nowInfo now sid uid loc prev g events h
    cases hb : (decide (g.sessionId = sid) && g.active) with
    | false => simp [checkGeofenceEvents, hb]
    | true => simp [checkGeofenceEvents, hb, h]

/-- Witness for C5 at concrete schedules and instants. -/
theorem claim_C5_witness :
    isGeofenceActiveNow none nowEx = true ∧
    isGeofenceActiveNow (some sOff) nowEx = true ∧
    isGeofenceActiveNow (some sDay) ⟨"sunday", "12:00"⟩ = false ∧
    isGeofenceActiveNow (some sDay) nowEx =
      (if strLe sDay.startTime sDay.endTime then
        strLe sDay.startTime nowEx.currentTime && strLe nowEx.currentTime sDay.endTime
      else
        strLe sDay.startTime nowEx.currentTime || strLe nowEx.currentTime sDay.endTime) ∧
    checkGeofenceEvents inCircle0 ⟨"monday", "18:15"⟩ 0 1 1 ⟨5, 5⟩ none [gSched] [] = [] :=
  ⟨claim_C5_schedule_gating.1 nowEx,
    claim_C5_schedule_gating.2.1 sOff nowEx rfl,
    claim_C5_schedule_gating.2.2.1 sDay ⟨"sunday", "12:00"⟩ rfl (by decide),
    claim_C5_schedule_gating.2.2.2.1 sDay nowEx rfl (by decide),
    claim_C5_schedule_gating.2.2.2.2 inCircle0 ⟨"monday", "18:15"⟩ 0 1 1 ⟨5, 5⟩ none gSched []
      (by decide)⟩

/-- Counterexample for C9 as stated, at two concrete inputs: the
violation template the code produces is prefixed with "🚨 ", so it is not
exactly "VIOLATION: <user> is in restricted zone <zoneName>"; and for a
per-user rule whose custom message is present but empty, the code falls
through to the template (line 461 is a JS truthiness guard) instead of
using the custom message as the claim states. -/
theorem claim_C9_counterexample :
    (createGeofenceAlertMessage gPlain 1 "Alice" EventType.violation =
      "🚨 VIOLATION: Alice is in restricted zone Test Zone" ∧
    createGeofenceAlertMessage gPlain 1 "Alice" EventType.violation ≠
      "VIOLATION: Alice is in restricted zone Test Zone") ∧
    ((findRule gEmptyMsg 2).bind (fun r => r.customMessage) = some "" ∧
    createGeofenceAlertMessage gEmptyMsg 2 "Bob" EventType.entry =
      "Bob entered Test Zone" ∧
    createGeofenceAlertMessage gEmptyMsg 2 "Bob" EventType.entry ≠ "") := by
  refine ⟨⟨rfl, by decide⟩, rfl, rfl, by decide⟩

/-- C9 (amended): the alert message is the per-user rule's custom message
when a truthy (present and non-empty) one exists for the triggering user;
when the resolved custom message is falsy (absent or empty), it is the
template keyed by event type — "<user> entered <zoneName>" for entry,
"<user> exited <zoneName>" for exit, and
"🚨 VIOLATION: <user> is in restricted zone <zoneName>" for violation. -/
theorem claim_C9_alert_message :
    (∀ (g : Geofence) (uid : ℕ) (userName : String) (et : EventType) (m : String),
      (findRule g uid).bind (fun r => r.customMessage) = some m →
      m ≠ "" →
      createGeofenceAlertMessage g uid userName et = m) ∧
    (∀ (g : Geofence) (uid : ℕ) (userName : String),
      strTruthy ((findRule g uid).bind (fun r => r.customMessage)) = false →
      createGeofenceAlertMessage g uid userName EventType.entry =
          userName ++ " entered " ++ g.name ∧
      createGeofenceAlertMessage g uid userName EventType.exit =
          userName ++ " exited " ++ g.name ∧
      createGeofenceAlertMessage g uid userName EventType.violation =
          "🚨 VIOLATION: " ++ userName ++ " is in restricted zone " ++ g.name) := by
  constructor
  · intro g uid userName et m h hm
    simp [createGeofenceAlertMessage, getAlertMessage, strTruthy, h, hm]
  · intro g uid userName h
    refine ⟨?_, ?_, ?_⟩ <;> simp [createGeofenceAlertMessage, getAlertMessage, h]

/-- Witness for C9 (amended) at concrete users and zones: a non-empty
custom message wins, no rule falls back to the template, and an empty
custom message also falls back to the template. -/
theorem claim_C9_witness :
    createGeofenceAlertMessage gCustom 2 "Bob" EventType.violation = "custom text" ∧
    createGeofenceAlertMessage gPlain 2 "Bob" EventType.entry =
      "Bob" ++ " entered " ++ gPlain.name ∧
    createGeofenceAlertMessage gEmptyMsg 2 "Bob" EventType.entry =
      "Bob" ++ " entered " ++ gEmptyMsg.name :=
  ⟨claim_C9_alert_message.1 gCustom 2 "Bob" EventType.violation "custom text" rfl
      (by decide),
    (claim_C9_alert_message.2 gPlain 2 "Bob" rfl).1,
    (claim_C9_alert_message.2 gEmptyMsg 2 "Bob" (by decide)).1⟩

/-- C1: Violation deduplication — when the user is inside an active
restricted zone, the violation stage persists a new violation event with
`alertSent = true` iff no prior violation event for the (user, geofence)
pair exists or the most recent one is older than the 5-minute (300000 ms)
cooldown; within the cooldown nothing at all is recorded by that stage.
In contrast, entry events are recorded even when no alert flag applies
(`alertSent = false`).  In particular, violation-triggering samples at
0 ms, 1 min and 6 min for the same user and geofence store exactly one
violation after the first two calls and a second one after the third. -/
theorem claim_C1_violation_dedup :
    (∀ (inCircle : Point → Point → ℚ → Bool) (now : ℤ) (sid uid : ℕ) (loc : Point)
      (events : List GeofenceEvent) (g : Geofence),
      g.type = GeofenceType.restrictedZone →
      geofenceContains inCircle g loc = true →
      handleViolation inCircle now sid uid loc events g =
        (match lastMatching events (isEventFor uid g.id EventType.violation) with
         | none =>
           events ++ [⟨sid, g.id, uid, EventType.violation, now, loc, true, false, none⟩]
         | some rv =>
           if now - rv.timestamp > 300000 then
             events ++ [⟨sid, g.id, uid, EventType.violation, now, loc, true, false, none⟩]
           else events)) ∧
    (∀ (inCircle : Point → Point → ℚ → Bool) (now : ℤ) (sid uid : ℕ) (loc : Point)
      (prev : Option Point) (events : List GeofenceEvent) (g : Geofence),
      geofenceContains inCircle g loc = true →
      wasInsideOf inCircle g prev = false →
      g.alertOnEntry = false → g.userRules = none →
      handleTransition inCircle now sid uid loc prev events g =
        events ++ [⟨sid, g.id, uid, EventType.entry, now, loc, false, false, none⟩]) ∧
    ((checkGeofenceEvents inCircle0 nowEx 0 1 1 ⟨5, 5⟩ none [gViol] []).countP
        (fun e => decide (e.eventType = EventType.violation)) = 1 ∧
      (checkGeofenceEvents inCircle0 nowEx 60000 1 1 ⟨5, 5⟩ (some ⟨5, 5⟩) [gViol]
          (checkGeofenceEvents inCircle0 nowEx 0 1 1 ⟨5, 5⟩ none [gViol] [])).countP
        (fun e => decide (e.eventType = EventType.violation)) = 1 ∧
      (checkGeofenceEvents inCircle0 nowEx 360000 1 1 ⟨5, 5⟩ (some ⟨5, 5⟩) [gViol]
          (checkGeofenceEvents inCircle0 nowEx 60000 1 1 ⟨5, 5⟩ (some ⟨5, 5⟩) [gViol]
            (checkGeofenceEvents inCircle0 nowEx 0 1 1 ⟨5, 5⟩ none [gViol] []))).countP
        (fun e => decide (e.eventType = EventType.violation)) = 2) := by
  refine ⟨?_, ?_, ?_⟩
  · intro inCircle now sid uid loc events g ht hC
    cases hm : lastMatching events (isEventFor uid g.id EventType.violation) with
    | none => simp [handleViolation, hC, ht, hm]
    | some rv =>
      by_cases hage : now - rv.timestamp > 300000
      · simp [handleViolation, hC, ht, hm, hage]
      · simp [handleViolation, hC, ht, hm, hage]
  · intro inCircle now sid uid loc prev events g hC hw hae hr
    rw [handleTransition_entry_eq hC hw]
    simp [findRule, hr, hae]
  · with_unfolding_all decide

/-- Witness for C1's universally quantified parts at concrete inputs. -/
theorem claim_C1_witness :
    handleViolation inCircle0 0 1 1 ⟨5, 5⟩ [] gViol =
      (match lastMatching [] (isEventFor 1 gViol.id EventType.violation) with
       | none => [] ++ [⟨1, gViol.id, 1, EventType.violation, 0, ⟨5, 5⟩, true, false, none⟩]
       | some rv =>
         if (0 : ℤ) - rv.timestamp > 300000 then
           [] ++ [⟨1, gViol.id, 1, EventType.violation, 0, ⟨5, 5⟩, true, false, none⟩]
         else []) ∧
    handleTransition inCircle0 0 1 1 ⟨5, 5⟩ none [] gViol =
      [] ++ [⟨1, gViol.id, 1, EventType.entry, 0, ⟨5, 5⟩, false, false, none⟩] :=
  ⟨claim_C1_violation_dedup.1 inCircle0 0 1 1 ⟨5, 5⟩ [] gViol rfl
      (by with_unfolding_all decide),
    claim_C1_violation_dedup.2.1 inCircle0 0 1 1 ⟨5, 5⟩ none [] gViol
      (by with_unfolding_all decide) rfl rfl rfl⟩

/-- C2: Independence of violation and entry/exit — whenever the current
location is inside an active restricted zone (and the cooldown does not
suppress), a violation event is persisted regardless of the previous
location; in particular a user coming from outside gets both the entry
event and the violation event persisted in the same call. -/
theorem claim_C2_independence :
    (∀ (inCircle : Point → Point → ℚ → Bool) (nowInfo : NowInfo) (now : ℤ)
      (sid uid : ℕ) (loc : Point) (prev : Option Point) (g : Geofence)
      (events : List GeofenceEvent),
      g.sessionId = sid → g.active = true →
      isGeofenceActiveNow g.schedule nowInfo = true →
      g.type = GeofenceType.restrictedZone →
      geofenceContains inCircle g loc = true →
      lastMatching events (isEventFor uid g.id EventType.violation) = none →
      (⟨sid, g.id, uid, EventType.violation, now, loc, true, false, none⟩ : GeofenceEvent) ∈
        checkGeofenceEvents inCircle nowInfo now sid uid loc prev [g] events) ∧
    (∀ (inCircle : Point → Point → ℚ → Bool) (nowInfo : NowInfo) (now : ℤ)
      (sid uid : ℕ) (loc q : Point) (g : Geofence) (events : List GeofenceEvent),
      g.sessionId = sid → g.active = true →
      isGeofenceActiveNow g.schedule nowInfo = true →
      g.type = GeofenceType.restrictedZone →
      g.alertOnEntry = true →
      geofenceContains inCircle g loc = true →
      geofenceContains inCircle g q = false →
      lastMatching events (isEventFor uid g.id EventType.violation) = none →
      checkGeofenceEvents inCircle nowInfo now sid uid loc (some q) [g] events =
        events ++ [⟨sid, g.id, uid, EventType.entry, now, loc, true, false, none⟩,
          ⟨sid, g.id, uid, EventType.violation, now, loc, true, false, none⟩]) := by
  constructor
  · intro inCircle nowInfo now sid uid loc prev g events hs ha hact ht hC hm
    rw [checkGeofenceEvents_singleton inCircle nowInfo now sid uid loc prev g events hs ha hact]
    unfold processGeofence
    cases hw : wasInsideOf inCircle g prev with
    | false =>
      rw [handleTransition_entry_eq hC hw]
      have hm2 : lastMatching
          (events ++ [⟨sid, g.id, uid, EventType.entry, now, loc,
            g.alertOnEntry || ((findRule g uid).map (fun r => r.alertOnEntry)).getD false,
            false, none⟩]) (isEventFor uid g.id EventType.violation) = none := by
        rw [lastMatching_append]
        simp [isEventFor, hm]
      simp [handleViolation, hC, ht, hm2]
    | true =>
      rw [handleTransition_idle_eq (hC.trans hw.symm)]
      simp [handleViolation, hC, ht, hm]
  · intro inCircle nowInfo now sid uid loc q g events hs ha hact ht hae hC hq hm
    rw [checkGeofenceEvents_singleton inCircle nowInfo now sid uid loc (some q) g events hs ha hact]
    unfold processGeofence
    have hw : wasInsideOf inCircle g (some q) = false := by simp [wasInsideOf, hq]
    rw [handleTransition_entry_eq hC hw, hae]
    simp only [Bool.true_or]
    have hm2 : lastMatching
        (events ++ [⟨sid, g.id, uid, EventType.entry, now, loc, true, false, none⟩])
        (isEventFor uid g.id EventType.violation) = none := by
      rw [lastMatching_append]
      simp [isEventFor, hm]
    simp [handleViolation, hC, ht, hm2]

/-- Witness for C2 at concrete inputs: entering the restricted square from
outside records the entry event and the violation event together. -/
theorem claim_C2_witness :
    (⟨1, gViol.id, 1, EventType.violation, 0, ⟨5, 5⟩, true, false, none⟩ : GeofenceEvent) ∈
      checkGeofenceEvents inCircle0 nowEx 0 1 1 ⟨5, 5⟩ (some ⟨20, 20⟩) [gViol] [] ∧
    checkGeofenceEvents inCircle0 nowEx 0 1 1 ⟨5, 5⟩ (some ⟨20, 20⟩) [gEntry] [] =
      [] ++ [⟨1, gEntry.id, 1, EventType.entry, 0, ⟨5, 5⟩, true, false, none⟩,
        ⟨1, gEntry.id, 1, EventType.violation, 0, ⟨5, 5⟩, true, false, none⟩] :=
  ⟨claim_C2_independence.1 inCircle0 nowEx 0 1 1 ⟨5, 5⟩ (some ⟨20, 20⟩) gViol [] rfl rfl rfl rfl
      (by with_unfolding_all decide) rfl,
    claim_C2_independence.2 inCircle0 nowEx 0 1 1 ⟨5, 5⟩ ⟨20, 20⟩ gEntry [] rfl rfl rfl rfl rfl
      (by with_unfolding_all decide) (by with_unfolding_all decide) rfl⟩

/-- C3: Transition decision — for a schedule-active geofence the call
records an entry event iff the user is inside now and was not inside
before, and an exit event iff the user is not inside now and was inside
before, where was-inside is `false` whenever no previous location is
supplied; consequently a first sample inside the zone records an entry. -/
theorem claim_C3_transition_decision :
    (∀ (inCircle : Point → Point → ℚ → Bool) (g : Geofence),
      wasInsideOf inCircle g none = false) ∧
    (∀ (inCircle : Point → Point → ℚ → Bool) (nowInfo : NowInfo) (now : ℤ)
      (sid uid : ℕ) (loc : Point) (prev : Option Point) (g : Geofence)
      (events : List GeofenceEvent),
      g.sessionId = sid → g.active = true →
      isGeofenceActiveNow g.schedule nowInfo = true →
      ((checkGeofenceEvents inCircle nowInfo now sid uid loc prev [g] events).drop
          events.length).any (fun e => decide (e.eventType = EventType.entry)) =
        (geofenceContains inCircle g loc && !wasInsideOf inCircle g prev) ∧
      ((checkGeofenceEvents inCircle nowInfo now sid uid loc prev [g] events).drop
          events.length).any (fun e => decide (e.eventType = EventType.exit)) =
        (!geofenceContains inCircle g loc && wasInsideOf inCircle g prev)) ∧
    (∀ (inCircle : Point → Point → ℚ → Bool) (nowInfo : NowInfo) (now : ℤ)
      (sid uid : ℕ) (loc : Point) (g : Geofence) (events : List GeofenceEvent),
      g.sessionId = sid → g.active = true →
      isGeofenceActiveNow g.schedule nowInfo = true →
      geofenceContains inCircle g loc = true →
      ((checkGeofenceEvents inCircle nowInfo now sid uid loc none [g] events).drop
        events.length).any (fun e => decide (e.eventType = EventType.entry)) = true) := by
  have main : ∀ (inCircle : Point → Point → ℚ → Bool) (nowInfo : NowInfo) (now : ℤ)
      (sid uid : ℕ) (loc : Point) (prev : Option Point) (g : Geofence)
      (events : List GeofenceEvent),
      g.sessionId = sid → g.active = true →
      isGeofenceActiveNow g.schedule nowInfo = true →
      ((checkGeofenceEvents inCircle nowInfo now sid uid loc prev [g] events).drop
          events.length).any (fun e => decide (e.eventType = EventType.entry)) =
        (geofenceContains inCircle g loc && !wasInsideOf inCircle g prev) ∧
      ((checkGeofenceEvents inCircle nowInfo now sid uid loc prev [g] events).drop
          events.length).any (fun e => decide (e.eventType = EventType.exit)) =
        (!geofenceContains inCircle g loc && wasInsideOf inCircle g prev) := by
    intro inCircle nowInfo now sid uid loc prev g events hs ha hact
    rw [checkGeofenceEvents_singleton inCircle nowInfo now sid uid loc prev g events hs ha hact]
    unfold processGeofence
    cases hIn : geofenceContains inCircle g loc <;> cases hw : wasInsideOf inCircle g prev
    · rw [handleTransition_idle_eq (hIn.trans hw.symm), handleViolation_skip_out hIn]
      simp [List.drop_length]
    · rw [handleTransition_exit_eq hIn hw,
        handleViolation_skip_out hIn]
      simp [List.drop_left]
    · rw [handleTransition_entry_eq hIn hw]
      rcases handleViolation_eq_or inCircle now sid uid loc
          (events ++ [⟨sid, g.id, uid, EventType.entry, now, loc,
            g.alertOnEntry || ((findRule g uid).map (fun r => r.alertOnEntry)).getD false,
            false, none⟩]) g with hv | hv <;>
        rw [hv] <;> simp [List.drop_left, List.append_assoc]
    · rw [handleTransition_idle_eq (hIn.trans hw.symm)]
      rcases handleViolation_eq_or inCircle now sid uid loc events g with hv | hv <;>
        rw [hv] <;> simp [List.drop_length, List.drop_left]
  refine ⟨fun _ _ => rfl, main, ?_⟩
  intro inCircle nowInfo now sid uid loc g events hs ha hact hC
  have h := (main inCircle nowInfo now sid uid loc none g events hs ha hact).1
  rw [hC] at h
  simpa [wasInsideOf] using h

/-- Witness for C3 at concrete inputs: a first sample inside the plain
square zone records an entry, and the drop-based recording equalities hold
for a concrete out-to-in call. -/
theorem claim_C3_witness :
    (((checkGeofenceEvents inCircle0 nowEx 0 1 1 ⟨5, 5⟩ (some ⟨20, 20⟩) [gPlain] []).drop
        (List.length ([] : List GeofenceEvent))).any
        (fun e => decide (e.eventType = EventType.entry)) =
      (geofenceContains inCircle0 gPlain ⟨5, 5⟩ && !wasInsideOf inCircle0 gPlain (some ⟨20, 20⟩)) ∧
      ((checkGeofenceEvents inCircle0 nowEx 0 1 1 ⟨5, 5⟩ (some ⟨20, 20⟩) [gPlain] []).drop
        (List.length ([] : List GeofenceEvent))).any
        (fun e => decide (e.eventType = EventType.exit)) =
      (!geofenceContains inCircle0 gPlain ⟨5, 5⟩ && wasInsideOf inCircle0 gPlain (some ⟨20, 20⟩))) ∧
    ((checkGeofenceEvents inCircle0 nowEx 0 1 1 ⟨5, 5⟩ none [gPlain] []).drop
      (List.length ([] : List GeofenceEvent))).any
      (fun e => decide (e.eventType = EventType.entry)) = true :=
  ⟨claim_C3_transition_decision.2.1 inCircle0 nowEx 0 1 1 ⟨5, 5⟩ (some ⟨20, 20⟩) gPlain [] rfl rfl rfl,
    claim_C3_transition_decision.2.2 inCircle0 nowEx 0 1 1 ⟨5, 5⟩ gPlain [] rfl rfl rfl
      (by with_unfolding_all decide)⟩

/-- C4: Exit duration metadata — an exit transition stores exactly one
exit event, stamped with the call time, whose `metadata.duration` is the
event's own timestamp minus the timestamp of the most recent prior entry
event for the same (user, geofence) pair, and is absent (`none`) when no
prior entry event exists. -/
theorem claim_C4_exit_duration :
    ∀ (inCircle : Point → Point → ℚ → Bool) (nowInfo : NowInfo) (now : ℤ)
      (sid uid : ℕ) (loc q : Point) (g : Geofence) (events : List GeofenceEvent),
      g.sessionId = sid → g.active = true →
      isGeofenceActiveNow g.schedule nowInfo = true →
      geofenceContains inCircle g loc = false →
      geofenceContains inCircle g q = true →
      checkGeofenceEvents inCircle nowInfo now sid uid loc (some q) [g] events =
        events ++ [⟨sid, g.id, uid, EventType.exit, now, loc,
          g.alertOnExit || ((findRule g uid).map (fun r => r.alertOnExit)).getD false,
          false,
          some ⟨(lastMatching events (isEventFor uid g.id EventType.entry)).map
            (fun e => now - e.timestamp)⟩⟩] := by
  intro inCircle nowInfo now sid uid loc q g events hs ha hact hC hq
  rw [checkGeofenceEvents_singleton inCircle nowInfo now sid uid loc (some q) g events hs ha hact]
  unfold processGeofence
  have hw : wasInsideOf inCircle g (some q) = true := by simp [wasInsideOf, hq]
  rw [handleTransition_exit_eq hC hw, handleViolation_skip_out hC]

/-- Witness for C4 at concrete inputs: leaving the square zone after a
stored prior entry yields the exit event with the elapsed duration. -/
theorem claim_C4_witness :
    checkGeofenceEvents inCircle0 nowEx 0 1 1 ⟨20, 20⟩ (some ⟨5, 5⟩) [gPlain] [eEntryOld] =
      [eEntryOld] ++ [⟨1, gPlain.id, 1, EventType.exit, 0, ⟨20, 20⟩,
        gPlain.alertOnExit || ((findRule gPlain 1).map (fun r => r.alertOnExit)).getD false,
        false,
        some ⟨(lastMatching [eEntryOld] (isEventFor 1 gPlain.id EventType.entry)).map
          (fun e => (0 : ℤ) - e.timestamp)⟩⟩] :=
  claim_C4_exit_duration inCircle0 nowEx 0 1 1 ⟨20, 20⟩ ⟨5, 5⟩ gPlain [eEntryOld] rfl rfl rfl
    (by with_unfolding_all decide) (by with_unfolding_all decide)

/-- C10: Zero-radius circles contain nothing — the dispatch tests the
radius for truthiness before consulting the circle test, so a circle
geofence with radius 0 contains no point (its own center included,
whatever the circle test would say) and never yields any event, exactly
like a circle with missing geometry. -/
theorem claim_C10_zero_radius :
    (∀ (inCircle : Point → Point → ℚ → Bool) (g : Geofence) (p : Point),
      g.shape = Shape.circle → g.radius = some 0 →
      geofenceContains inCircle g p = false) ∧
    (∀ (inCircle : Point → Point → ℚ → Bool) (g : Geofence) (c : Point),
      g.shape = Shape.circle → g.radius = some 0 → g.center = some c →
      geofenceContains inCircle g c = false) ∧
    (∀ (inCircle : Point → Point → ℚ → Bool) (nowInfo : NowInfo) (now : ℤ)
      (sid uid : ℕ) (loc : Point) (prev : Option Point) (g : Geofence)
      (events : List GeofenceEvent),
      g.shape = Shape.circle → g.radius = some 0 →
      checkGeofenceEvents inCircle nowInfo now sid uid loc prev [g] events = events) := by
  have base : ∀ (inCircle : Point → Point → ℚ → Bool) (g : Geofence) (p : Point),
      g.shape = Shape.circle → g.radius = some 0 →
      geofenceContains inCircle g p = false := by
    intro inCircle g p hshape hrad
    simp [geofenceContains, hshape, hrad, radiusTruthy]
  refine ⟨base, ?_, ?_⟩
  · intro inCircle g c hshape hrad _
    exact base inCircle g c hshape hrad
  · intro inCircle nowInfo now sid uid loc prev g events hshape hrad
    exact checkGeofenceEvents_of_not_contains inCircle nowInfo now sid uid loc prev g events
      (fun q => base inCircle g q hshape hrad)

/-- Witness for C10: even with an always-true circle test, the zero-radius
circle contains nothing (its center included) and a sample at the center
records nothing. -/
theorem claim_C10_witness :
    geofenceContains inCircle1 gZero ⟨5, 5⟩ = false ∧
    geofenceContains inCircle1 gZero ⟨0, 0⟩ = false ∧
    checkGeofenceEvents inCircle1 nowEx 0 1 1 ⟨0, 0⟩ none [gZero] [] = [] :=
  ⟨claim_C10_zero_radius.1 inCircle1 gZero ⟨5, 5⟩ rfl rfl,
    claim_C10_zero_radius.2.1 inCircle1 gZero ⟨0, 0⟩ rfl rfl rfl,
    claim_C10_zero_radius.2.2 inCircle1 nowEx 0 1 1 ⟨0, 0⟩ none gZero [] rfl rfl⟩
